import Mathlib

/-!
# Verification of the research-workflow orchestration engine

Shallow embedding of `src/backend/app/orchestration/` of the
`researchAIde_new` repository: the graph state (`graph_state.py`), the pure
conditional-edge routers (`conditional_edges.py`), the node functions
(`nodes/*.py`) and the graph wiring of `orchestrator.py`
(`ResearchOrchestrator._build_graph`, `route_after_error_handler`,
`RETRYABLE_NODES`).

Modelling conventions:
* Python dict/`TypedDict` fields that may be absent or `None` are `Option`s;
  a node's returned delta distinguishes "key absent" (field untouched by the
  merge) from "key present with value `None`" (field overwritten to `None`),
  hence the doubly-optional fields of `Delta`.
* Python floats are embedded as rationals (`ℚ`); the scores compared against
  the `0.85` threshold never depend on binary rounding.
* Opaque payloads (papers, analysis dictionaries produced by the LLM agents)
  are carried as `String`s / small records: the orchestration code only moves
  them around, compares statuses and takes list heads, and never computes on
  their contents.
* `add_messages` (the LangGraph reducer annotated on `GraphState.messages`)
  is embedded as `addMessages`: per-id upsert, appending messages whose id is
  new.  Fresh `uuid4` ids on newly constructed messages are expressed as
  freshness hypotheses where they matter.
-/

namespace ResearchAIde

/-- `AgentMessage` (message_models.py), restricted to the fields the
orchestration claims inspect.  `id` stands for the LangChain `BaseMessage.id`
used by the `add_messages` reducer (a fresh uuid4 in the source). -/
structure AgentMsg where
  id : Nat
  sender : String
  performative : String
  deriving DecidableEq, Repr

/-- The `postdoc_evaluation_output` dict, restricted to the keys read by
`should_refine_further`: `accept_as_is` and `score`. -/
structure EvalOut where
  acceptAsIs : Option Bool
  score : Option ℚ
  deriving DecidableEq, Repr

instance : Inhabited EvalOut := ⟨⟨none, none⟩⟩

/-- An opaque analysis payload (e.g. `literature_analysis_output`): the
orchestration code only reads its `status` key and otherwise treats it as an
opaque value. -/
structure AnalysisOutput where
  status : Option String
  payload : String
  deriving DecidableEq, Repr

/-- An opaque paper record in a shortlist. -/
abbrev Paper := String

/-- `MAX_ITERATIONS_REFINE = 3` (graph_state.py line 6). -/
def MAX_ITERATIONS_REFINE : Int := 3

/-- `MAX_RETRIES = 2` (graph_state.py line 7). -/
def MAX_RETRIES : Int := 2

/-- Python truthiness of an optional string (`if state.get("error_message")`). -/
def truthyStr : Option String → Bool
  | none => false
  | some s => s ≠ ""

/-- Python truthiness of an optional bool (`if state.get("conflict_detected")`). -/
def truthyBool : Option Bool → Bool
  | none => false
  | some b => b

/-- `d.get(k, default)` on a Python dict with string keys and int values
(`retry_attempts`). -/
def dictGetD (m : List (String × Int)) (k : String) (d : Int) : Int :=
  match m.find? (fun p => p.1 == k) with
  | some p => p.2
  | none => d

/-- `d[k] = v` on a Python dict with string keys and int values. -/
def dictInsert (m : List (String × Int)) (k : String) (v : Int) :
    List (String × Int) :=
  if m.any (fun p => p.1 == k) then
    m.map (fun p => if p.1 == k then (k, v) else p)
  else
    m ++ [(k, v)]

/-- The slice of `GraphState` (graph_state.py) that the claims under
verification read or write.  Fields the orchestration layer never touches
(constructed queries, raw results, report payloads, ...) are omitted: no
claim mentions them and no modelled node branches on them. -/
structure S where
  researchQuery : Option String
  hitlShortlistReviewActive : Bool
  iterationCount : Int
  retryAttempts : List (String × Int)
  errorMessage : Option String
  errorSourceNode : Option String
  errorDetails : Option String
  recoveryStrategyDecision : Option String
  conflictDetected : Option Bool
  conflictingOutputs : Option (List AnalysisOutput)
  literatureAnalysisOutput : Option AnalysisOutput
  resolvedOutput : Option AnalysisOutput
  postdocEvaluationOutput : Option EvalOut
  workflowOutcome : Option String
  initialPaperShortlist : Option (List Paper)
  confirmedPaperShortlist : Option (List Paper)
  messages : List AgentMsg
  deriving DecidableEq, Repr

/-- `should_refine_further` (conditional_edges.py lines 7-30), with the
source's check order: `accept_as_is`, then the iteration cap, then the
quality score.  `postdoc_eval = state.get("postdoc_evaluation_output", {})`
and `postdoc_eval.get("score", 0.0)` are the dict defaults of the source. -/
def should_refine_further (state : S) : String :=
  let postdoc_eval : EvalOut := state.postdocEvaluationOutput.getD default
  if postdoc_eval.acceptAsIs = some true then "finalize_output"
  else if state.iterationCount ≥ MAX_ITERATIONS_REFINE then "finalize_output"
  else if postdoc_eval.score.getD 0 ≥ (85 : ℚ) / 100 then "finalize_output"
  else "refine_directions"

/-- `check_for_errors` (conditional_edges.py lines 32-40). -/
def check_for_errors (state : S) : String :=
  if truthyStr state.errorMessage then "error_found" else "no_error"

/-- `check_for_conflict` (conditional_edges.py lines 42-49). -/
def check_for_conflict (state : S) : String :=
  if truthyBool state.conflictDetected then "conflict_found" else "no_conflict"

/-- The acceptance condition of clause (a) of C1: the evaluation was accepted
as-is (`postdoc_eval.get("accept_as_is") == True`). -/
def evalAccepted (state : S) : Prop :=
  (state.postdocEvaluationOutput.getD default).acceptAsIs = some true

/-- The score condition of clause (c) of C1: evaluation quality score ≥ 0.85
(`postdoc_eval.get("score", 0.0) >= MIN_ACCEPTABLE_SCORE`). -/
def evalScoreMet (state : S) : Prop :=
  (state.postdocEvaluationOutput.getD default).score.getD 0 ≥ (85 : ℚ) / 100

/-- The router written in the claim's order (acceptance flag, then score
threshold, then iteration cap), to be compared with the source's
`should_refine_further`.  Modelled from the spec's tie-break sentence. -/
def shouldRefineFurtherSpecOrder (state : S) : String :=
  let postdoc_eval : EvalOut := state.postdocEvaluationOutput.getD default
  if postdoc_eval.acceptAsIs = some true then "finalize_output"
  else if postdoc_eval.score.getD 0 ≥ (85 : ℚ) / 100 then "finalize_output"
  else if state.iterationCount ≥ MAX_ITERATIONS_REFINE then "finalize_output"
  else "refine_directions"

/-- A partial-field state update returned by a node (the Python dict merged
into `GraphState` by LangGraph).  An outer `none` means the key is absent
from the returned dict (field untouched); `some v` means the key is present
with value `v`, where `v` itself may be `none` for the Python value `None`.
`messagesAppended` holds the newly constructed messages of the delta: both
source styles — returning `[msg]` and returning
`add_messages(state["messages"], [msg])` — append exactly `[msg]` under the
`add_messages` reducer with fresh message ids (proved below for
`addMessages`). -/
structure Delta where
  researchQuery : Option (Option String) := none
  iterationCount : Option Int := none
  retryAttempts : Option (List (String × Int)) := none
  errorMessage : Option (Option String) := none
  errorSourceNode : Option (Option String) := none
  errorDetails : Option (Option String) := none
  recoveryStrategyDecision : Option (Option String) := none
  conflictDetected : Option (Option Bool) := none
  conflictingOutputs : Option (Option (List AnalysisOutput)) := none
  literatureAnalysisOutput : Option (Option AnalysisOutput) := none
  resolvedOutput : Option (Option AnalysisOutput) := none
  postdocEvaluationOutput : Option (Option EvalOut) := none
  workflowOutcome : Option (Option String) := none
  initialPaperShortlist : Option (Option (List Paper)) := none
  confirmedPaperShortlist : Option (Option (List Paper)) := none
  messagesAppended : Option (List AgentMsg) := none
  deriving DecidableEq, Repr

/-- The LangGraph merge of a node's returned delta into the state: present
keys overwrite, absent keys keep the previous value, and the annotated
`messages` channel appends the delta's new messages. -/
def merge (s : S) (d : Delta) : S where
  researchQuery := d.researchQuery.getD s.researchQuery
  hitlShortlistReviewActive := s.hitlShortlistReviewActive
  iterationCount := d.iterationCount.getD s.iterationCount
  retryAttempts := d.retryAttempts.getD s.retryAttempts
  errorMessage := d.errorMessage.getD s.errorMessage
  errorSourceNode := d.errorSourceNode.getD s.errorSourceNode
  errorDetails := d.errorDetails.getD s.errorDetails
  recoveryStrategyDecision := d.recoveryStrategyDecision.getD s.recoveryStrategyDecision
  conflictDetected := d.conflictDetected.getD s.conflictDetected
  conflictingOutputs := d.conflictingOutputs.getD s.conflictingOutputs
  literatureAnalysisOutput := d.literatureAnalysisOutput.getD s.literatureAnalysisOutput
  resolvedOutput := d.resolvedOutput.getD s.resolvedOutput
  postdocEvaluationOutput := d.postdocEvaluationOutput.getD s.postdocEvaluationOutput
  workflowOutcome := d.workflowOutcome.getD s.workflowOutcome
  initialPaperShortlist := d.initialPaperShortlist.getD s.initialPaperShortlist
  confirmedPaperShortlist := d.confirmedPaperShortlist.getD s.confirmedPaperShortlist
  messages := s.messages ++ d.messagesAppended.getD []

/-- A freshly constructed `AgentMessage(...)` of a node, keeping the fields
the claims inspect (sender node and performative); the reducer-assigned id is
irrelevant inside the state machine and fixed to 0. -/
def mkMsg (sender performative : String) : AgentMsg :=
  ⟨0, sender, performative⟩

/-- Nondeterministic outcome of a node body whose branches (normal
completion, skip/no-op, caught collaborator exception with message
`str(e)`) all have the same shape on the modelled fields.  Collaborator
results irrelevant to the claims are dropped; nondeterminism over-approximates
the source (an invariant over this relation covers every real execution). -/
inductive NodeOutcome where
  | ok
  | skip
  | fail (msg : String)
  deriving DecidableEq, Repr

/-- `initialize_workflow_node` (initialization_nodes.py lines 15-68).  The
success branch also sets `session_id`, `general_area` and
`initial_phd_prompt`, fields no claim mentions; the error branch (empty or
missing `research_query`) returns only the error fields and `session_id` — in
particular no `messages` key. -/
def initWorkflowNodeDelta (state : S) : Delta :=
  if truthyStr state.researchQuery then
    { researchQuery := some state.researchQuery,
      iterationCount := some 0,
      retryAttempts := some [],
      messagesAppended := some [mkMsg "SystemInitializer" "inform_state"],
      errorMessage := some none, errorSourceNode := some none,
      errorDetails := some none }
  else
    { errorMessage := some (some "Research query is missing in the initial state."),
      errorSourceNode := some (some "initialize_workflow_node"),
      errorDetails := some (some "traceback") }

/-- `formulate_search_queries_node` (initialization_nodes.py lines 70-142):
success appends one `inform_result` message and clears the error fields; a
caught exception sets the error triple and appends one `error_report`
message.  The node has no distinct skip branch (`skip` is identified with
`ok`). -/
def planningNodeDelta (o : NodeOutcome) : Delta :=
  match o with
  | .ok | .skip =>
      { messagesAppended := some [mkMsg "formulate_search_queries_node" "inform_result"],
        errorMessage := some none, errorSourceNode := some none,
        errorDetails := some none }
  | .fail msg =>
      { errorMessage := some (some msg),
        errorSourceNode := some (some "formulate_search_queries_node"),
        errorDetails := some (some "traceback"),
        messagesAppended := some [mkMsg "formulate_search_queries_node" "error_report"] }

/-- `execute_arxiv_search_node` (initialization_nodes.py lines 144-221):
skip (no valid queries) appends a `status_update` message, success an
`inform_result` message; both clear the error fields. -/
def searchingNodeDelta (o : NodeOutcome) : Delta :=
  match o with
  | .ok =>
      { messagesAppended := some [mkMsg "execute_arxiv_search_node" "inform_result"],
        errorMessage := some none, errorSourceNode := some none,
        errorDetails := some none }
  | .skip =>
      { messagesAppended := some [mkMsg "execute_arxiv_search_node" "status_update"],
        errorMessage := some none, errorSourceNode := some none,
        errorDetails := some none }
  | .fail msg =>
      { errorMessage := some (some msg),
        errorSourceNode := some (some "execute_arxiv_search_node"),
        errorDetails := some (some "traceback"),
        messagesAppended := some [mkMsg "execute_arxiv_search_node" "error_report"] }

/-- `score_paper_relevance_node` (analysis_nodes.py lines 23-107): the skip
branch (no raw results) and the success branch both append one
`inform_result` message and clear the error fields. -/
def scorePaperRelevanceNodeDelta (o : NodeOutcome) : Delta :=
  match o with
  | .ok | .skip =>
      { messagesAppended := some [mkMsg "score_paper_relevance_node" "inform_result"],
        errorMessage := some none, errorSourceNode := some none,
        errorDetails := some none }
  | .fail msg =>
      { errorMessage := some (some msg),
        errorSourceNode := some (some "score_paper_relevance_node"),
        errorDetails := some (some "traceback"),
        messagesAppended := some [mkMsg "score_paper_relevance_node" "error_report"] }

/-- `create_initial_shortlist_node` (analysis_nodes.py lines 109-150); the
produced shortlist contents are an opaque parameter. -/
def createInitialShortlistNodeDelta (shortlist : List Paper) (o : NodeOutcome) : Delta :=
  match o with
  | .ok =>
      { initialPaperShortlist := some (some shortlist),
        messagesAppended := some [mkMsg "create_initial_shortlist_node" "inform_result"],
        errorMessage := some none, errorSourceNode := some none,
        errorDetails := some none }
  | .skip =>
      { initialPaperShortlist := some (some []),
        messagesAppended := some [mkMsg "create_initial_shortlist_node" "status_update"],
        errorMessage := some none, errorSourceNode := some none,
        errorDetails := some none }
  | .fail msg =>
      { errorMessage := some (some msg),
        errorSourceNode := some (some "create_initial_shortlist_node"),
        errorDetails := some (some "traceback"),
        initialPaperShortlist := some (some []),
        messagesAppended := some [mkMsg "create_initial_shortlist_node" "error_report"] }

/-- `request_shortlist_review_node` (analysis_nodes.py lines 152-216).
`graphCheckpointer` is the `graph_checkpointer` parameter (`True` when a
checkpoint saver object is passed, `False` for the default `None`);
`failure` is a caught exception.  On the normal path: empty shortlist
auto-confirms the empty list; otherwise with
`config_parameters["hitl_shortlist_review_active"]` truthy AND a
checkpointer, `confirmed_paper_shortlist` stays `[]` and the appended
`request_action` message carries the review prompt; otherwise the initial
shortlist is auto-confirmed.  No branch sets any waiting flag: `GraphState`
has no `is_waiting_for_input` field and the node raises no interrupt. -/
def requestShortlistReviewNodeDelta (state : S) (graphCheckpointer : Bool)
    (failure : Option String) : Delta :=
  match failure with
  | some msg =>
      { errorMessage := some (some msg),
        errorSourceNode := some (some "request_shortlist_review_node"),
        errorDetails := some (some "traceback"),
        confirmedPaperShortlist := some (some []),
        messagesAppended := some [mkMsg "request_shortlist_review_node" "error_report"] }
  | none =>
      let initial_shortlist := state.initialPaperShortlist.getD []
      if initial_shortlist = [] then
        { confirmedPaperShortlist := some (some []),
          messagesAppended := some [mkMsg "request_shortlist_review_node" "status_update"],
          errorMessage := some none, errorSourceNode := some none,
          errorDetails := some none }
      else
        let confirmed :=
          if state.hitlShortlistReviewActive ∧ graphCheckpointer then []
          else initial_shortlist
        { confirmedPaperShortlist := some (some confirmed),
          messagesAppended := some [mkMsg "request_shortlist_review_node" "request_action"],
          errorMessage := some none, errorSourceNode := some none,
          errorDetails := some none }

/-- The `request_shortlist_review` graph node as actually registered by
`ResearchOrchestrator._build_graph` (orchestrator.py line 120): the function
is added WITHOUT binding `graph_checkpointer`, so the parameter keeps its
default `None` on every execution, whatever checkpointer the compiled graph
itself holds. -/
def wiredRequestShortlistReview (state : S) (failure : Option String) : Delta :=
  requestShortlistReviewNodeDelta state false failure

/-- `process_and_ingest_papers_node` (analysis_nodes.py lines 218-340). -/
def processingPapersNodeDelta (o : NodeOutcome) : Delta :=
  match o with
  | .ok =>
      { messagesAppended := some [mkMsg "process_and_ingest_papers_node" "inform_result"],
        errorMessage := some none, errorSourceNode := some none,
        errorDetails := some none }
  | .skip =>
      { messagesAppended := some [mkMsg "process_and_ingest_papers_node" "status_update"],
        errorMessage := some none, errorSourceNode := some none,
        errorDetails := some none }
  | .fail msg =>
      { errorMessage := some (some msg),
        errorSourceNode := some (some "process_and_ingest_papers_node"),
        errorDetails := some (some "traceback"),
        messagesAppended := some [mkMsg "process_and_ingest_papers_node" "error_report"] }

/-- `perform_literature_analysis_node` (analysis_nodes.py lines 342-401);
`out` is the opaque agent analysis on success (the source attaches status
`analysis_complete` or an agent-issue status). -/
def literatureAnalysisNodeDelta (out : AnalysisOutput) (o : NodeOutcome) : Delta :=
  match o with
  | .ok =>
      { literatureAnalysisOutput := some (some out),
        messagesAppended := some [mkMsg "perform_literature_analysis_node" "inform_result"],
        errorMessage := some none, errorSourceNode := some none,
        errorDetails := some none }
  | .skip =>
      { literatureAnalysisOutput := some (some ⟨some "skipped_no_ingested_content", ""⟩),
        messagesAppended := some [mkMsg "perform_literature_analysis_node" "inform_result"],
        errorMessage := some none, errorSourceNode := some none,
        errorDetails := some none }
  | .fail msg =>
      { errorMessage := some (some msg),
        errorSourceNode := some (some "perform_literature_analysis_node"),
        errorDetails := some (some "traceback"),
        literatureAnalysisOutput := some (some ⟨some "analysis_error", ""⟩),
        messagesAppended := some [mkMsg "perform_literature_analysis_node" "error_report"] }

/-- `identify_research_gaps_node` (refinement_nodes.py lines 16-72): skip
and success both append one `inform_result` message and clear the errors. -/
def identifyGapsNodeDelta (o : NodeOutcome) : Delta :=
  match o with
  | .ok | .skip =>
      { messagesAppended := some [mkMsg "identify_research_gaps_node" "inform_result"],
        errorMessage := some none, errorSourceNode := some none,
        errorDetails := some none }
  | .fail msg =>
      { errorMessage := some (some msg),
        errorSourceNode := some (some "identify_research_gaps_node"),
        errorDetails := some (some "traceback"),
        messagesAppended := some [mkMsg "identify_research_gaps_node" "error_report"] }

/-- `generate_research_directions_node` (refinement_nodes.py lines 74-135):
the skip branch and the success branch both set `iteration_count` to 0
(initialising the refinement loop); the error branch keeps the current
value. -/
def generatingDirectionsNodeDelta (state : S) (o : NodeOutcome) : Delta :=
  match o with
  | .ok | .skip =>
      { iterationCount := some 0,
        messagesAppended := some [mkMsg "generate_research_directions_node" "inform_result"],
        errorMessage := some none, errorSourceNode := some none,
        errorDetails := some none }
  | .fail msg =>
      { errorMessage := some (some msg),
        errorSourceNode := some (some "generate_research_directions_node"),
        errorDetails := some (some "traceback"),
        iterationCount := some state.iterationCount,
        messagesAppended := some [mkMsg "generate_research_directions_node" "error_report"] }

/-- `evaluate_research_directions_node` (refinement_nodes.py lines 137-199):
every branch — agent evaluation, HITL placeholder, simulated approval, skip,
and the caught-exception branch — sets
`iteration_count = state.get("iteration_count", 0) + 1`.  `ev` is the
evaluation payload on the non-error branches (the skip/HITL/simulated
variants carry no `accept_as_is`/`score` keys, a special case of an
arbitrary `ev`). -/
def evaluateDirectionsNodeDelta (state : S) (ev : EvalOut) (o : NodeOutcome) : Delta :=
  match o with
  | .ok | .skip =>
      { postdocEvaluationOutput := some (some ev),
        iterationCount := some (state.iterationCount + 1),
        messagesAppended := some [mkMsg "evaluate_research_directions_node" "inform_result"],
        errorMessage := some none, errorSourceNode := some none,
        errorDetails := some none }
  | .fail msg =>
      { errorMessage := some (some msg),
        errorSourceNode := some (some "evaluate_research_directions_node"),
        errorDetails := some (some "traceback"),
        postdocEvaluationOutput := some (some ⟨none, none⟩),
        iterationCount := some (state.iterationCount + 1),
        messagesAppended := some [mkMsg "evaluate_research_directions_node" "error_report"] }

/-- `refine_directions_based_on_assessment_node` (refinement_nodes.py lines
201-269): the success and error branches write `iteration_count` back
unchanged, the skip branches omit the key. -/
def refiningDirectionsNodeDelta (state : S) (o : NodeOutcome) : Delta :=
  match o with
  | .ok =>
      { iterationCount := some state.iterationCount,
        messagesAppended :=
          some [mkMsg "refine_directions_based_on_assessment_node" "inform_result"],
        errorMessage := some none, errorSourceNode := some none,
        errorDetails := some none }
  | .skip =>
      { messagesAppended :=
          some [mkMsg "refine_directions_based_on_assessment_node" "inform_result"],
        errorMessage := some none, errorSourceNode := some none,
        errorDetails := some none }
  | .fail msg =>
      { errorMessage := some (some msg),
        errorSourceNode := some (some "refine_directions_based_on_assessment_node"),
        errorDetails := some (some "traceback"),
        iterationCount := some state.iterationCount,
        messagesAppended :=
          some [mkMsg "refine_directions_based_on_assessment_node" "error_report"] }

/-- `prepare_final_output_node` (utility_nodes.py lines 12-71): success sets
`workflow_outcome = "success"`, the caught-exception branch sets
`workflow_outcome = "error_in_finalization"` with the error triple. -/
def prepareFinalOutputNodeDelta (o : NodeOutcome) : Delta :=
  match o with
  | .ok | .skip =>
      { workflowOutcome := some (some "success"),
        messagesAppended := some [mkMsg "prepare_final_output_node" "inform_result"],
        errorMessage := some none, errorSourceNode := some none,
        errorDetails := some none }
  | .fail msg =>
      { errorMessage := some (some msg),
        errorSourceNode := some (some "prepare_final_output_node"),
        errorDetails := some (some "traceback"),
        workflowOutcome := some (some "error_in_finalization"),
        messagesAppended := some [mkMsg "prepare_final_output_node" "error_report"] }

/-- `global_error_handler_node` (utility_nodes.py lines 73-140).  With
`current_retries < MAX_RETRIES` it bumps the failed node's retry counter,
decides `RETRY_NODE` and clears the error triple in the same delta; otherwise
it decides `TERMINATE_SAFELY` and leaves the state untouched apart from the
decision.  Both branches return the retry map and append one `error_report`
message.  Note the handler never writes `workflow_outcome`. -/
def globalErrorHandlerNodeDelta (state : S) : Delta :=
  let source_node := state.errorSourceNode.getD "Unknown node"
  let current_retries := dictGetD state.retryAttempts source_node 0
  if current_retries < MAX_RETRIES then
    { recoveryStrategyDecision := some (some "RETRY_NODE"),
      retryAttempts := some (dictInsert state.retryAttempts source_node (current_retries + 1)),
      errorMessage := some none, errorSourceNode := some none,
      errorDetails := some none,
      messagesAppended := some [mkMsg "global_error_handler_node" "error_report"] }
  else
    { recoveryStrategyDecision := some (some "TERMINATE_SAFELY"),
      retryAttempts := some state.retryAttempts,
      messagesAppended := some [mkMsg "global_error_handler_node" "error_report"] }

/-- `resolve_conflict_node` (utility_nodes.py lines 142-178).  Normal path:
a non-empty `conflicting_outputs` list resolves to its first element,
otherwise the node falls back to the committed
`literature_analysis_output`; it clears `conflict_detected` and the error
triple.  The caught-exception branch keeps `conflict_detected` set. -/
def resolveConflictNodeDelta (state : S) (failure : Option String) : Delta :=
  match failure with
  | none =>
      let resolved : Option AnalysisOutput :=
        match state.conflictingOutputs with
        | some (c :: _) => some c
        | _ => state.literatureAnalysisOutput
      { literatureAnalysisOutput := some resolved,
        conflictDetected := some (some false),
        conflictingOutputs := some none,
        resolvedOutput := some resolved,
        messagesAppended := some [mkMsg "resolve_conflict_node" "inform_result"],
        errorMessage := some none, errorSourceNode := some none,
        errorDetails := some none }
  | some msg =>
      { errorMessage := some (some ("Failed to resolve conflict: " ++ msg)),
        errorSourceNode := some (some "resolve_conflict_node"),
        errorDetails := some (some "traceback"),
        conflictDetected := some (some true),
        messagesAppended := some [mkMsg "resolve_conflict_node" "error_report"] }

/-- The graph nodes registered by `ResearchOrchestrator._build_graph`
(orchestrator.py lines 111-137), named as in the source. -/
inductive Node where
  | initializing
  | planning
  | searching
  | score_paper_relevance
  | create_initial_shortlist
  | request_shortlist_review
  | processing_papers
  | literature_analysis
  | check_conflict_after_literature_analysis
  | identifying_gaps
  | generating_directions
  | evaluate_research_directions
  | refine_directions
  | check_refinement_loop_condition
  | presenting_final_directions
  | global_error_handler
  | resolve_conflict
  deriving DecidableEq, Repr

/-- `RETRYABLE_NODES` (orchestrator.py lines 63-72): the graph node names
eligible as retry targets after the error handler. -/
def RETRYABLE_NODES : List String :=
  ["initializing", "planning", "searching",
   "score_paper_relevance", "create_initial_shortlist", "request_shortlist_review",
   "processing_papers", "literature_analysis",
   "identifying_gaps", "generating_directions",
   "evaluate_research_directions", "refine_directions",
   "presenting_final_directions",
   "resolve_conflict"]

/-- The graph node registered under a node-name string (the keys used in
`_build_graph`); `none` for a string that names no registered node. -/
def nodeOfName : String → Option Node
  | "initializing" => some .initializing
  | "planning" => some .planning
  | "searching" => some .searching
  | "score_paper_relevance" => some .score_paper_relevance
  | "create_initial_shortlist" => some .create_initial_shortlist
  | "request_shortlist_review" => some .request_shortlist_review
  | "processing_papers" => some .processing_papers
  | "literature_analysis" => some .literature_analysis
  | "check_conflict_after_literature_analysis" =>
      some .check_conflict_after_literature_analysis
  | "identifying_gaps" => some .identifying_gaps
  | "generating_directions" => some .generating_directions
  | "evaluate_research_directions" => some .evaluate_research_directions
  | "refine_directions" => some .refine_directions
  | "check_refinement_loop_condition" => some .check_refinement_loop_condition
  | "presenting_final_directions" => some .presenting_final_directions
  | "global_error_handler" => some .global_error_handler
  | "resolve_conflict" => some .resolve_conflict
  | _ => none

/-- `route_after_error_handler` (orchestrator.py lines 74-87): reads the
recovery decision and the (already merged) `error_source_node`; returns the
node name to retry, or `none` for `END`. -/
def route_after_error_handler (state : S) : Option String :=
  let recovery_decision := state.recoveryStrategyDecision.getD "TERMINATE_SAFELY"
  if recovery_decision = "RETRY_NODE" then
    match state.errorSourceNode with
    | some source_node =>
        if source_node ∈ RETRYABLE_NODES then some source_node else none
    | none => none
  else
    none

/-- Lookup in a branch map passed to `add_conditional_edges`. -/
def lookupStr (m : List (String × String)) (k : String) : Option String :=
  match m.find? (fun p => p.1 == k) with
  | some p => some p.2
  | none => none

/-- The branch map of the conditional edge registered for
`check_refinement_loop_condition` (orchestrator.py line 179).  Its keys are
the two node names, not the router's return values. -/
def refinementLoopBranchMap : List (String × String) :=
  [("evaluate_research_directions", "evaluate_research_directions"),
   ("presenting_final_directions", "presenting_final_directions")]

/-- The branch map of the conditional edge registered for
`check_conflict_after_literature_analysis` (orchestrator.py line 176). -/
def conflictBranchMap : List (String × String) :=
  [("conflict_found", "resolve_conflict"),
   ("no_conflict", "identifying_gaps")]

/-- An execution position: at a node, at `END`, or stuck because a router
produced a value outside its registered branch map (LangGraph raises there;
either way no further node executes). -/
inductive Pos where
  | node (n : Node)
  | finished
  | stuck
  deriving DecidableEq, Repr

/-- Resolve a branch-map target node name to a position. -/
def posOfName (nm : String) : Pos :=
  match nodeOfName nm with
  | some n => .node n
  | none => .stuck

/-- The standard error edge added for every worker node
(`add_conditional_edges(node, check_for_errors, ...)`, orchestrator.py
lines 164-178): to `global_error_handler` on `error_found`, else to the
success-path target. -/
def errRoute (s : S) (nxt : Pos) : Pos :=
  if check_for_errors s = "error_found" then .node .global_error_handler else nxt

/-- The routing table of `_build_graph` (orchestrator.py lines 139-180):
the position after node `n` has executed and its delta has been merged,
evaluated on the merged state `s`. -/
def nextAfter (n : Node) (s : S) : Pos :=
  match n with
  | .initializing => errRoute s (.node .planning)
  | .planning => errRoute s (.node .searching)
  | .searching => errRoute s (.node .score_paper_relevance)
  | .score_paper_relevance => errRoute s (.node .create_initial_shortlist)
  | .create_initial_shortlist => errRoute s (.node .request_shortlist_review)
  | .request_shortlist_review => errRoute s (.node .processing_papers)
  | .processing_papers => errRoute s (.node .literature_analysis)
  | .literature_analysis =>
      errRoute s (.node .check_conflict_after_literature_analysis)
  | .check_conflict_after_literature_analysis =>
      match lookupStr conflictBranchMap (check_for_conflict s) with
      | some nm => posOfName nm
      | none => .stuck
  | .resolve_conflict => errRoute s (.node .identifying_gaps)
  | .identifying_gaps => errRoute s (.node .generating_directions)
  | .generating_directions => errRoute s (.node .evaluate_research_directions)
  | .evaluate_research_directions => errRoute s (.node .refine_directions)
  | .refine_directions => errRoute s (.node .check_refinement_loop_condition)
  | .check_refinement_loop_condition =>
      match lookupStr refinementLoopBranchMap (should_refine_further s) with
      | some nm => posOfName nm
      | none => .stuck
  | .presenting_final_directions => errRoute s .finished
  | .global_error_handler =>
      match route_after_error_handler s with
      | some nm => posOfName nm
      | none => .finished

/-- An engine configuration: current position and state. -/
abbrev ExecState := Pos × S

/-- Execute node `n` on state `s` with delta `d`: merge the delta and resolve
the next position on the merged state. -/
def runStep (n : Node) (d : Delta) (s : S) : ExecState :=
  (nextAfter n (merge s d), merge s d)

/-- One engine step: the node at the current position executes (with its
nondeterministic collaborator outcome) and routing resolves the next
position.  The two conditional-edge helper nodes
(`check_conflict_after_literature_analysis`,
`check_refinement_loop_condition`) are pure deciders: they change no state. -/
inductive Step : ExecState → ExecState → Prop where
  | initializing (s : S) :
      Step (.node .initializing, s) (runStep .initializing (initWorkflowNodeDelta s) s)
  | planning (s : S) (o : NodeOutcome) :
      Step (.node .planning, s) (runStep .planning (planningNodeDelta o) s)
  | searching (s : S) (o : NodeOutcome) :
      Step (.node .searching, s) (runStep .searching (searchingNodeDelta o) s)
  | score_paper_relevance (s : S) (o : NodeOutcome) :
      Step (.node .score_paper_relevance, s)
        (runStep .score_paper_relevance (scorePaperRelevanceNodeDelta o) s)
  | create_initial_shortlist (s : S) (sh : List Paper) (o : NodeOutcome) :
      Step (.node .create_initial_shortlist, s)
        (runStep .create_initial_shortlist (createInitialShortlistNodeDelta sh o) s)
  | request_shortlist_review (s : S) (failure : Option String) :
      Step (.node .request_shortlist_review, s)
        (runStep .request_shortlist_review (wiredRequestShortlistReview s failure) s)
  | processing_papers (s : S) (o : NodeOutcome) :
      Step (.node .processing_papers, s)
        (runStep .processing_papers (processingPapersNodeDelta o) s)
  | literature_analysis (s : S) (out : AnalysisOutput) (o : NodeOutcome) :
      Step (.node .literature_analysis, s)
        (runStep .literature_analysis (literatureAnalysisNodeDelta out o) s)
  | check_conflict_after_literature_analysis (s : S) :
      Step (.node .check_conflict_after_literature_analysis, s)
        (nextAfter .check_conflict_after_literature_analysis s, s)
  | identifying_gaps (s : S) (o : NodeOutcome) :
      Step (.node .identifying_gaps, s)
        (runStep .identifying_gaps (identifyGapsNodeDelta o) s)
  | generating_directions (s : S) (o : NodeOutcome) :
      Step (.node .generating_directions, s)
        (runStep .generating_directions (generatingDirectionsNodeDelta s o) s)
  | evaluate_research_directions (s : S) (ev : EvalOut) (o : NodeOutcome) :
      Step (.node .evaluate_research_directions, s)
        (runStep .evaluate_research_directions (evaluateDirectionsNodeDelta s ev o) s)
  | refine_directions (s : S) (o : NodeOutcome) :
      Step (.node .refine_directions, s)
        (runStep .refine_directions (refiningDirectionsNodeDelta s o) s)
  | check_refinement_loop_condition (s : S) :
      Step (.node .check_refinement_loop_condition, s)
        (nextAfter .check_refinement_loop_condition s, s)
  | presenting_final_directions (s : S) (o : NodeOutcome) :
      Step (.node .presenting_final_directions, s)
        (runStep .presenting_final_directions (prepareFinalOutputNodeDelta o) s)
  | global_error_handler (s : S) :
      Step (.node .global_error_handler, s)
        (runStep .global_error_handler (globalErrorHandlerNodeDelta s) s)
  | resolve_conflict (s : S) (failure : Option String) :
      Step (.node .resolve_conflict, s)
        (runStep .resolve_conflict (resolveConflictNodeDelta s failure) s)

/-- The initial `GraphState` built for `graph.ainvoke` at workflow start
(spec §3 lifecycle: empty/default fields): the caller supplies the research
query, the HITL config flag and the initiating messages; every other field
starts absent, `iteration_count` effectively 0 (every read uses
`.get("iteration_count", 0)`), `retry_attempts` empty. -/
def initialS (q : Option String) (hitl : Bool) (ms : List AgentMsg) : S where
  researchQuery := q
  hitlShortlistReviewActive := hitl
  iterationCount := 0
  retryAttempts := []
  errorMessage := none
  errorSourceNode := none
  errorDetails := none
  recoveryStrategyDecision := none
  conflictDetected := none
  conflictingOutputs := none
  literatureAnalysisOutput := none
  resolvedOutput := none
  postdocEvaluationOutput := none
  workflowOutcome := none
  initialPaperShortlist := none
  confirmedPaperShortlist := none
  messages := ms

/-- Reachability from the entry edge `START → "initializing"`
(orchestrator.py line 139). -/
def Reachable (q : Option String) (hitl : Bool) (ms : List AgentMsg)
    (es : ExecState) : Prop :=
  Relation.ReflTransGen Step (.node .initializing, initialS q hitl ms) es

/-- The per-node retry counter read `retry_attempts.get(k, 0)`. -/
def retryGet (s : S) (k : String) : Int :=
  dictGetD s.retryAttempts k 0

/-- Upper bound for `iteration_count` at a position, used by the reachability
invariant: the counter is 0 up to and including entry of the evaluation node
and at most 1 afterwards (the wiring of orchestrator.py line 179 prevents the
loop from re-entering evaluation, and retry routing never fires). -/
def iterBound : Pos → Int
  | .node .refine_directions => 1
  | .node .check_refinement_loop_condition => 1
  | .node .presenting_final_directions => 1
  | .node .global_error_handler => 1
  | .finished => 1
  | .stuck => 1
  | .node _ => 0

/-- The inductive invariant of the execution machine: `iteration_count`
within its positional bound, every retry counter within `[0, MAX_RETRIES]`,
and an empty retry map at the entry node. -/
def InvES (es : ExecState) : Prop :=
  0 ≤ es.2.iterationCount ∧
  es.2.iterationCount ≤ iterBound es.1 ∧
  (∀ k, 0 ≤ retryGet es.2 k ∧ retryGet es.2 k ≤ MAX_RETRIES) ∧
  (es.1 = .node .initializing → es.2.retryAttempts = [])

/-- The LangGraph `add_messages` reducer on the annotated `messages` channel
(`langgraph.graph.message.add_messages`): each right-hand message replaces
the existing message with the same id, or is appended when its id is new. -/
def addMessages (old new : List AgentMsg) : List AgentMsg :=
  new.foldl (fun acc m =>
    if acc.any (fun x => x.id == m.id) then
      acc.map (fun x => if x.id == m.id then m else x)
    else acc ++ [m]) old

/-- One update of the `messages` channel as performed by the source's node
executions under the `add_messages` reducer.  Nodes either return just their
new messages (`"messages": [msg]`) or pass the old log through
(`"messages": add_messages(state["messages"], [msg])`); in both styles the
new messages carry fresh reducer-assigned uuid ids (`hfresh`), and in the
pass-through style the old log's ids are pairwise distinct uuids
(`hnodup`). -/
inductive LogStep : List AgentMsg → List AgentMsg → Prop where
  | direct (old delta : List AgentMsg)
      (hfresh : ∀ m ∈ delta, ∀ o ∈ old, m.id ≠ o.id) :
      LogStep old (addMessages old delta)
  | passthrough (old delta : List AgentMsg)
      (hnodup : (old.map AgentMsg.id).Nodup)
      (hfresh : ∀ m ∈ delta, ∀ o ∈ old, m.id ≠ o.id) :
      LogStep old (addMessages old (old ++ delta))

/-- A state in which the error handler is entered for a first failure of the
relevance-scoring node, used to evaluate the retry path concretely. -/
def sFirstFailure : S :=
  { initialS (some "q") false [] with
    errorMessage := some "boom",
    errorSourceNode := some "score_paper_relevance_node",
    errorDetails := some "traceback" }

/-- A state in which the error handler is entered after the failed node has
already exhausted `MAX_RETRIES` attempts. -/
def sMaxRetries : S :=
  { initialS (some "q") false [] with
    errorMessage := some "boom",
    errorSourceNode := some "score_paper_relevance_node",
    errorDetails := some "traceback",
    retryAttempts := [("score_paper_relevance_node", 2)] }

/-- A state at the shortlist-review node with a one-paper shortlist and HITL
review enabled in the config. -/
def sHitlReview : S :=
  { initialS (some "q") true [] with
    initialPaperShortlist := some ["paper1"] }

/-- A state entering conflict resolution with two conflicting analysis
candidates. -/
def sConflict : S :=
  { initialS (some "q") false [] with
    conflictDetected := some true,
    conflictingOutputs :=
      some [⟨some "analysis_complete", "candidateA"⟩, ⟨none, "candidateB"⟩],
    literatureAnalysisOutput := some ⟨some "analysis_complete", "committed"⟩ }

instance (state : S) : Decidable (evalAccepted state) := by
  unfold evalAccepted; infer_instance

instance (state : S) : Decidable (evalScoreMet state) := by
  unfold evalScoreMet; infer_instance

/-- C1: `should_refine_further` returns `finalize_output` exactly when the
evaluation was accepted as-is, or `iteration_count ≥ MAX_ITERATIONS_REFINE`,
or the quality score is ≥ 0.85, and `refine_directions` otherwise; moreover
the first-true-wins chain in the claim's priority order (acceptance, then
score threshold, then iteration cap) computes the same result on every input
state, so the stated tie-break is observably correct. -/
theorem C1_should_refine_further_characterization (state : S) :
    (should_refine_further state = "finalize_output" ↔
      (evalAccepted state ∨ state.iterationCount ≥ MAX_ITERATIONS_REFINE ∨
        evalScoreMet state)) ∧
    (should_refine_further state = "refine_directions" ↔
      ¬(evalAccepted state ∨ state.iterationCount ≥ MAX_ITERATIONS_REFINE ∨
        evalScoreMet state)) ∧
    should_refine_further state = shouldRefineFurtherSpecOrder state := by
  unfold should_refine_further shouldRefineFurtherSpecOrder evalAccepted evalScoreMet
  by_cases ha : (state.postdocEvaluationOutput.getD default).acceptAsIs = some true <;>
    by_cases hi : state.iterationCount ≥ MAX_ITERATIONS_REFINE <;>
      by_cases hs :
          (state.postdocEvaluationOutput.getD default).score.getD 0 ≥ (85 : ℚ) / 100 <;>
        simp [ha, hi, hs]

theorem find_map_upsert (m : List (String × Int)) (k k' : String) (v : Int)
    (h : k' ≠ k) :
    (m.map (fun p => if p.1 == k then (k, v) else p)).find? (fun p => p.1 == k') =
      m.find? (fun p => p.1 == k') := by
  induction m with
  | nil => rfl
  | cons p t ih =>
      rw [List.map_cons]
      by_cases hp : p.1 = k
      · rw [if_pos (by simpa using hp)]
        rw [List.find?_cons_of_neg _ (by simpa using Ne.symm h),
          List.find?_cons_of_neg _ (by simp [hp, Ne.symm h]), ih]
      · rw [if_neg (by simpa using hp)]
        by_cases hp' : p.1 = k'
        · rw [List.find?_cons_of_pos _ (by simpa using hp'),
            List.find?_cons_of_pos _ (by simpa using hp')]
        · rw [List.find?_cons_of_neg _ (by simpa using hp'),
            List.find?_cons_of_neg _ (by simpa using hp'), ih]

theorem find_map_upsert_self (m : List (String × Int)) (k : String) (v : Int)
    (h : m.any (fun p => p.1 == k) = true) :
    (m.map (fun p => if p.1 == k then (k, v) else p)).find? (fun p => p.1 == k) =
      some (k, v) := by
  induction m with
  | nil => simp at h
  | cons p t ih =>
      rw [List.map_cons]
      by_cases hp : p.1 = k
      · rw [if_pos (by simpa using hp)]
        rw [List.find?_cons_of_pos _ (by simp)]
      · rw [if_neg (by simpa using hp)]
        simp only [List.any_cons, Bool.or_eq_true, beq_iff_eq] at h
        rcases h with h | h
        · exact absurd h hp
        · rw [List.find?_cons_of_neg _ (by simpa using hp), ih h]

theorem dictGetD_dictInsert (m : List (String × Int)) (k k' : String) (v : Int) :
    dictGetD (dictInsert m k v) k' 0 = if k' = k then v else dictGetD m k' 0 := by
  unfold dictInsert
  by_cases hany : m.any (fun p => p.1 == k) = true
  · rw [if_pos hany]
    by_cases hk : k' = k
    · subst hk
      unfold dictGetD
      rw [find_map_upsert_self m k' v hany]
      simp
    · unfold dictGetD
      rw [find_map_upsert m k k' v hk]
      simp [hk]
  · rw [if_neg hany]
    unfold dictGetD
    rw [List.find?_append]
    by_cases hk : k' = k
    · subst hk
      have hnone : m.find? (fun p => p.1 == k') = none := by
        rw [List.find?_eq_none]
        intro x hx
        simp only [beq_iff_eq]
        intro hkx
        exact hany (List.any_eq_true.mpr ⟨x, hx, by simp [hkx]⟩)
      rw [hnone]
      rw [List.find?_cons_of_pos _ (by simp)]
      simp
    · cases hf : m.find? (fun p => p.1 == k') with
      | some q => simp [hf, hk]
      | none => simp [List.find?_cons, beq_iff_eq, Ne.symm hk, hk]

/-- Both strings `should_refine_further` can return miss every key of the
branch map registered for `check_refinement_loop_condition`. -/
theorem should_refine_values (s : S) :
    should_refine_further s = "finalize_output" ∨
      should_refine_further s = "refine_directions" := by
  unfold should_refine_further
  by_cases h1 : (s.postdocEvaluationOutput.getD default).acceptAsIs = some true <;>
    by_cases h2 : s.iterationCount ≥ MAX_ITERATIONS_REFINE <;>
      by_cases h3 :
          (s.postdocEvaluationOutput.getD default).score.getD 0 ≥ (85 : ℚ) / 100 <;>
        simp [h1, h2, h3]

theorem refinement_lookup_none (s : S) :
    lookupStr refinementLoopBranchMap (should_refine_further s) = none := by
  rcases should_refine_values s with h | h <;> rw [h] <;> rfl

/-- The standard error edge goes to the error handler or to the success
target. -/
theorem errRoute_cases (s : S) (nxt : Pos) :
    errRoute s nxt = .node .global_error_handler ∨ errRoute s nxt = nxt := by
  unfold errRoute
  split_ifs <;> simp

/-- After the error handler's delta is merged, `route_after_error_handler`
always returns `END`: the retry branch has just cleared
`error_source_node`, and the terminate branch does not decide `RETRY_NODE`. -/
theorem handler_route_end (s : S) :
    route_after_error_handler (merge s (globalErrorHandlerNodeDelta s)) = none := by
  by_cases h :
      dictGetD s.retryAttempts (s.errorSourceNode.getD "Unknown node") 0 < MAX_RETRIES
  · simp [globalErrorHandlerNodeDelta, h, route_after_error_handler, merge]
  · simp [globalErrorHandlerNodeDelta, h, route_after_error_handler, merge]

theorem iterBound_le_one (p : Pos) : iterBound p ≤ 1 := by
  cases p with
  | node n => cases n <;> decide
  | finished => decide
  | stuck => decide

theorem review_delta_untouched (s : S) (f : Option String) :
    (wiredRequestShortlistReview s f).iterationCount = none ∧
      (wiredRequestShortlistReview s f).retryAttempts = none := by
  unfold wiredRequestShortlistReview requestShortlistReviewNodeDelta
  cases f with
  | some m => exact ⟨rfl, rfl⟩
  | none =>
      by_cases h : s.initialPaperShortlist.getD [] = [] <;> simp [h]

theorem handler_delta_retry (s : S)
    (h : dictGetD s.retryAttempts (s.errorSourceNode.getD "Unknown node") 0 <
      MAX_RETRIES) :
    globalErrorHandlerNodeDelta s =
      { recoveryStrategyDecision := some (some "RETRY_NODE"),
        retryAttempts := some (dictInsert s.retryAttempts
          (s.errorSourceNode.getD "Unknown node")
          (dictGetD s.retryAttempts (s.errorSourceNode.getD "Unknown node") 0 + 1)),
        errorMessage := some none, errorSourceNode := some none,
        errorDetails := some none,
        messagesAppended := some [mkMsg "global_error_handler_node" "error_report"] } := by
  simp [globalErrorHandlerNodeDelta, h]

theorem handler_delta_terminate (s : S)
    (h : ¬ dictGetD s.retryAttempts (s.errorSourceNode.getD "Unknown node") 0 <
      MAX_RETRIES) :
    globalErrorHandlerNodeDelta s =
      { recoveryStrategyDecision := some (some "TERMINATE_SAFELY"),
        retryAttempts := some s.retryAttempts,
        messagesAppended := some [mkMsg "global_error_handler_node" "error_report"] } := by
  simp [globalErrorHandlerNodeDelta, h]

theorem inv_step_keep (n : Node) (nxt : Pos) (s : S) (d : Delta)
    (hIter : d.iterationCount.getD s.iterationCount = s.iterationCount)
    (hRetry : d.retryAttempts.getD s.retryAttempts = s.retryAttempts)
    (hnext : nextAfter n (merge s d) = errRoute (merge s d) nxt)
    (hBound : iterBound (.node n) ≤ iterBound nxt)
    (hNotInit : nxt ≠ Pos.node .initializing)
    (hInv : InvES (.node n, s)) :
    InvES (runStep n d s) := by
  obtain ⟨h0, h1, h2, _⟩ := hInv
  have hIter' : (merge s d).iterationCount = s.iterationCount := hIter
  have hRetry' : (merge s d).retryAttempts = s.retryAttempts := hRetry
  unfold runStep
  rw [hnext]
  rcases errRoute_cases (merge s d) nxt with h | h <;> rw [h]
  · exact ⟨by rw [hIter']; exact h0,
      by rw [hIter']; exact le_trans h1 (iterBound_le_one _),
      fun k => by
        have := h2 k
        simpa [retryGet, hRetry'] using this,
      by intro hh; simp at hh⟩
  · exact ⟨by rw [hIter']; exact h0,
      by rw [hIter']; exact le_trans h1 hBound,
      fun k => by
        have := h2 k
        simpa [retryGet, hRetry'] using this,
      fun hh => absurd hh hNotInit⟩

theorem inv_step (es es' : ExecState) (hInv : InvES es) (hs : Step es es') :
    InvES es' := by
  cases hs with
  | initializing s =>
      obtain ⟨h0, h1, h2, h4⟩ := hInv
      have hiter0 : s.iterationCount = 0 := le_antisymm h1 h0
      have hretry0 : s.retryAttempts = [] := h4 rfl
      cases htr : truthyStr s.researchQuery with
      | true =>
          refine inv_step_keep .initializing (.node .planning) s _ ?_ ?_ rfl
            (by decide) (by decide) ⟨h0, h1, h2, h4⟩
          · simp [initWorkflowNodeDelta, htr, hiter0]
          · simp [initWorkflowNodeDelta, htr, hretry0]
      | false =>
          refine inv_step_keep .initializing (.node .planning) s _ ?_ ?_ rfl
            (by decide) (by decide) ⟨h0, h1, h2, h4⟩
          · simp [initWorkflowNodeDelta, htr]
          · simp [initWorkflowNodeDelta, htr]
  | planning s o =>
      cases o <;>
        exact inv_step_keep .planning (.node .searching) s _ rfl rfl rfl
          (by decide) (by decide) hInv
  | searching s o =>
      cases o <;>
        exact inv_step_keep .searching (.node .score_paper_relevance) s _ rfl rfl rfl
          (by decide) (by decide) hInv
  | score_paper_relevance s o =>
      cases o <;>
        exact inv_step_keep .score_paper_relevance (.node .create_initial_shortlist) s _
          rfl rfl rfl (by decide) (by decide) hInv
  | create_initial_shortlist s sh o =>
      cases o <;>
        exact inv_step_keep .create_initial_shortlist (.node .request_shortlist_review) s _
          rfl rfl rfl (by decide) (by decide) hInv
  | request_shortlist_review s f =>
      obtain ⟨hI, hR⟩ := review_delta_untouched s f
      refine inv_step_keep .request_shortlist_review (.node .processing_papers) s _
        ?_ ?_ rfl (by decide) (by decide) hInv
      · rw [hI]; rfl
      · rw [hR]; rfl
  | processing_papers s o =>
      cases o <;>
        exact inv_step_keep .processing_papers (.node .literature_analysis) s _
          rfl rfl rfl (by decide) (by decide) hInv
  | literature_analysis s out o =>
      cases o <;>
        exact inv_step_keep .literature_analysis
          (.node .check_conflict_after_literature_analysis) s _
          rfl rfl rfl (by decide) (by decide) hInv
  | check_conflict_after_literature_analysis s =>
      obtain ⟨h0, h1, h2, _⟩ := hInv
      have hnext :
          nextAfter .check_conflict_after_literature_analysis s =
              Pos.node .resolve_conflict ∨
            nextAfter .check_conflict_after_literature_analysis s =
              Pos.node .identifying_gaps := by
        unfold nextAfter check_for_conflict
        by_cases hb : truthyBool s.conflictDetected = true
        · left; rw [if_pos hb]; rfl
        · right; rw [if_neg hb]; rfl
      rcases hnext with h | h <;> rw [h] <;>
        exact ⟨h0, h1, h2, by intro hh; simp at hh⟩
  | identifying_gaps s o =>
      cases o <;>
        exact inv_step_keep .identifying_gaps (.node .generating_directions) s _
          rfl rfl rfl (by decide) (by decide) hInv
  | generating_directions s o =>
      have hiter0 : s.iterationCount = 0 := le_antisymm hInv.2.1 hInv.1
      cases o with
      | ok =>
          refine inv_step_keep .generating_directions
            (.node .evaluate_research_directions) s _ ?_ rfl rfl
            (by decide) (by decide) hInv
          simp [generatingDirectionsNodeDelta, hiter0]
      | skip =>
          refine inv_step_keep .generating_directions
            (.node .evaluate_research_directions) s _ ?_ rfl rfl
            (by decide) (by decide) hInv
          simp [generatingDirectionsNodeDelta, hiter0]
      | fail m =>
          exact inv_step_keep .generating_directions
            (.node .evaluate_research_directions) s _ rfl rfl rfl
            (by decide) (by decide) hInv
  | evaluate_research_directions s ev o =>
      obtain ⟨h0, h1, h2, _⟩ := hInv
      have hiter0 : s.iterationCount = 0 := le_antisymm h1 h0
      have hI : (merge s (evaluateDirectionsNodeDelta s ev o)).iterationCount =
          s.iterationCount + 1 := by cases o <;> rfl
      have hR : (merge s (evaluateDirectionsNodeDelta s ev o)).retryAttempts =
          s.retryAttempts := by cases o <;> rfl
      unfold runStep
      have hnext : nextAfter .evaluate_research_directions
          (merge s (evaluateDirectionsNodeDelta s ev o)) =
          errRoute (merge s (evaluateDirectionsNodeDelta s ev o))
            (.node .refine_directions) := rfl
      rw [hnext]
      rcases errRoute_cases (merge s (evaluateDirectionsNodeDelta s ev o))
          (.node .refine_directions) with h | h <;> rw [h] <;>
        exact ⟨by rw [hI]; omega,
          by rw [hI, hiter0]; show (0 : Int) + 1 ≤ 1; norm_num,
          fun k => by
            have := h2 k
            simpa [retryGet, hR] using this,
          by intro hh; simp at hh⟩
  | refine_directions s o =>
      cases o <;>
        exact inv_step_keep .refine_directions (.node .check_refinement_loop_condition) s _
          rfl rfl rfl (by decide) (by decide) hInv
  | check_refinement_loop_condition s =>
      obtain ⟨h0, h1, h2, _⟩ := hInv
      have hnext : nextAfter .check_refinement_loop_condition s = Pos.stuck := by
        unfold nextAfter
        rw [refinement_lookup_none]
      rw [hnext]
      exact ⟨h0, h1, h2, by intro hh; simp at hh⟩
  | presenting_final_directions s o =>
      cases o <;>
        exact inv_step_keep .presenting_final_directions .finished s _
          rfl rfl rfl (by decide) (by decide) hInv
  | global_error_handler s =>
      obtain ⟨h0, h1, h2, _⟩ := hInv
      unfold runStep
      have hnext : nextAfter .global_error_handler
          (merge s (globalErrorHandlerNodeDelta s)) = Pos.finished := by
        unfold nextAfter
        rw [handler_route_end]
      rw [hnext]
      by_cases hc : dictGetD s.retryAttempts (s.errorSourceNode.getD "Unknown node") 0 <
          MAX_RETRIES
      · rw [handler_delta_retry s hc]
        refine ⟨h0, le_trans h1 (iterBound_le_one _), ?_, by intro hh; simp at hh⟩
        intro k
        have hsb := h2 (s.errorSourceNode.getD "Unknown node")
        have hkb := h2 k
        have hval : retryGet (merge s
            { recoveryStrategyDecision := some (some "RETRY_NODE"),
              retryAttempts := some (dictInsert s.retryAttempts
                (s.errorSourceNode.getD "Unknown node")
                (dictGetD s.retryAttempts (s.errorSourceNode.getD "Unknown node") 0 + 1)),
              errorMessage := some none, errorSourceNode := some none,
              errorDetails := some none,
              messagesAppended := some [mkMsg "global_error_handler_node" "error_report"] }) k =
            dictGetD (dictInsert s.retryAttempts
              (s.errorSourceNode.getD "Unknown node")
              (dictGetD s.retryAttempts (s.errorSourceNode.getD "Unknown node") 0 + 1)) k 0 :=
          rfl
        rw [hval, dictGetD_dictInsert]
        simp only [retryGet, MAX_RETRIES] at hsb hkb hc ⊢
        split_ifs with hk
        · omega
        · omega
      · rw [handler_delta_terminate s hc]
        refine ⟨h0, le_trans h1 (iterBound_le_one _), ?_, by intro hh; simp at hh⟩
        intro k
        have := h2 k
        simpa [retryGet] using this
  | resolve_conflict s f =>
      cases f <;>
        exact inv_step_keep .resolve_conflict (.node .identifying_gaps) s _
          rfl rfl rfl (by decide) (by decide) hInv

theorem handler_iter_field (s : S) :
    (globalErrorHandlerNodeDelta s).iterationCount = none := by
  by_cases hc : dictGetD s.retryAttempts (s.errorSourceNode.getD "Unknown node") 0 <
      MAX_RETRIES <;>
    simp [globalErrorHandlerNodeDelta, hc]

theorem handler_retry_field (s : S) :
    (globalErrorHandlerNodeDelta s).retryAttempts =
      some (if dictGetD s.retryAttempts (s.errorSourceNode.getD "Unknown node") 0 <
          MAX_RETRIES
        then dictInsert s.retryAttempts (s.errorSourceNode.getD "Unknown node")
          (dictGetD s.retryAttempts (s.errorSourceNode.getD "Unknown node") 0 + 1)
        else s.retryAttempts) := by
  by_cases hc : dictGetD s.retryAttempts (s.errorSourceNode.getD "Unknown node") 0 <
      MAX_RETRIES <;>
    simp [globalErrorHandlerNodeDelta, hc]

theorem step_mono (es es' : ExecState) (hInv : InvES es) (hs : Step es es') :
    es.2.iterationCount ≤ es'.2.iterationCount ∧
      ∀ k, retryGet es.2 k ≤ retryGet es'.2 k := by
  cases hs with
  | initializing s =>
      obtain ⟨h0, h1, _, h4⟩ := hInv
      have hiter0 : s.iterationCount = 0 := le_antisymm h1 h0
      have hretry0 : s.retryAttempts = [] := h4 rfl
      cases htr : truthyStr s.researchQuery with
      | true =>
          constructor
          · simp [runStep, merge, initWorkflowNodeDelta, htr, hiter0]
          · intro k
            simp [runStep, merge, retryGet, initWorkflowNodeDelta, htr, hretry0]
      | false =>
          constructor
          · simp [runStep, merge, initWorkflowNodeDelta, htr]
          · intro k
            simp [runStep, merge, retryGet, initWorkflowNodeDelta, htr]
  | planning s o => cases o <;> exact ⟨le_refl _, fun k => le_refl _⟩
  | searching s o => cases o <;> exact ⟨le_refl _, fun k => le_refl _⟩
  | score_paper_relevance s o => cases o <;> exact ⟨le_refl _, fun k => le_refl _⟩
  | create_initial_shortlist s sh o => cases o <;> exact ⟨le_refl _, fun k => le_refl _⟩
  | request_shortlist_review s f =>
      obtain ⟨hI, hR⟩ := review_delta_untouched s f
      constructor
      · have hIter' : (merge s (wiredRequestShortlistReview s f)).iterationCount =
            s.iterationCount := by simp [merge, hI]
        rw [show ((runStep .request_shortlist_review (wiredRequestShortlistReview s f) s).2)
            = merge s (wiredRequestShortlistReview s f) from rfl, hIter']
      · intro k
        have hRetry' : (merge s (wiredRequestShortlistReview s f)).retryAttempts =
            s.retryAttempts := by simp [merge, hR]
        have : retryGet (merge s (wiredRequestShortlistReview s f)) k = retryGet s k := by
          unfold retryGet
          rw [hRetry']
        rw [show ((runStep .request_shortlist_review (wiredRequestShortlistReview s f) s).2)
            = merge s (wiredRequestShortlistReview s f) from rfl, this]
  | processing_papers s o => cases o <;> exact ⟨le_refl _, fun k => le_refl _⟩
  | literature_analysis s out o => cases o <;> exact ⟨le_refl _, fun k => le_refl _⟩
  | check_conflict_after_literature_analysis s => exact ⟨le_refl _, fun k => le_refl _⟩
  | identifying_gaps s o => cases o <;> exact ⟨le_refl _, fun k => le_refl _⟩
  | generating_directions s o =>
      have hiter0 : s.iterationCount = 0 := le_antisymm hInv.2.1 hInv.1
      cases o with
      | ok =>
          exact ⟨by simp [runStep, merge, generatingDirectionsNodeDelta, hiter0],
            fun k => le_refl _⟩
      | skip =>
          exact ⟨by simp [runStep, merge, generatingDirectionsNodeDelta, hiter0],
            fun k => le_refl _⟩
      | fail m => exact ⟨le_refl _, fun k => le_refl _⟩
  | evaluate_research_directions s ev o =>
      constructor
      · cases o <;>
          exact le_of_lt (by exact lt_add_one s.iterationCount)
      · intro k
        cases o <;> exact le_refl _
  | refine_directions s o => cases o <;> exact ⟨le_refl _, fun k => le_refl _⟩
  | check_refinement_loop_condition s => exact ⟨le_refl _, fun k => le_refl _⟩
  | presenting_final_directions s o => cases o <;> exact ⟨le_refl _, fun k => le_refl _⟩
  | global_error_handler s =>
      constructor
      · have hIter' : (merge s (globalErrorHandlerNodeDelta s)).iterationCount =
            s.iterationCount := by simp [merge, handler_iter_field]
        rw [show ((runStep .global_error_handler (globalErrorHandlerNodeDelta s) s).2)
            = merge s (globalErrorHandlerNodeDelta s) from rfl, hIter']
      · intro k
        show retryGet s k ≤
          retryGet ((runStep .global_error_handler (globalErrorHandlerNodeDelta s) s).2) k
        have hRetry' : (merge s (globalErrorHandlerNodeDelta s)).retryAttempts =
            (if dictGetD s.retryAttempts (s.errorSourceNode.getD "Unknown node") 0 <
                MAX_RETRIES
              then dictInsert s.retryAttempts (s.errorSourceNode.getD "Unknown node")
                (dictGetD s.retryAttempts (s.errorSourceNode.getD "Unknown node") 0 + 1)
              else s.retryAttempts) := by simp [merge, handler_retry_field]
        have hval : retryGet ((runStep .global_error_handler
            (globalErrorHandlerNodeDelta s) s).2) k =
            dictGetD (merge s (globalErrorHandlerNodeDelta s)).retryAttempts k 0 := rfl
        rw [hval, hRetry']
        by_cases hc : dictGetD s.retryAttempts (s.errorSourceNode.getD "Unknown node") 0 <
            MAX_RETRIES
        · rw [if_pos hc, dictGetD_dictInsert]
          unfold retryGet
          split_ifs with hk
          · rw [hk]; omega
          · omega
        · rw [if_neg hc]
          exact le_refl _
  | resolve_conflict s f => cases f <;> exact ⟨le_refl _, fun k => le_refl _⟩

theorem inv_start (q : Option String) (hitl : Bool) (ms : List AgentMsg) :
    InvES (.node .initializing, initialS q hitl ms) :=
  ⟨le_refl 0, le_refl 0,
    fun _ => ⟨le_refl 0, (by norm_num : (0 : Int) ≤ 2)⟩,
    fun _ => rfl⟩

theorem inv_reachable (q : Option String) (hitl : Bool) (ms : List AgentMsg)
    (es : ExecState) (h : Reachable q hitl ms es) : InvES es := by
  unfold Reachable at h
  induction h with
  | refl => exact inv_start q hitl ms
  | tail h1 h2 ih => exact inv_step _ _ ih h2

/-- C5: in every reachable state of the workflow graph (started as the spec's
lifecycle prescribes, with default-initialised loop/error fields),
`0 ≤ iteration_count ≤ MAX_ITERATIONS_REFINE` and
`0 ≤ retry_attempts[n] ≤ MAX_RETRIES` for every node name `n`, and both
quantities are non-decreasing along every execution step taken from a
reachable state. -/
theorem C5_iteration_and_retry_invariant (q : Option String) (hitl : Bool)
    (ms : List AgentMsg) (es : ExecState) (h : Reachable q hitl ms es) :
    (0 ≤ es.2.iterationCount ∧ es.2.iterationCount ≤ MAX_ITERATIONS_REFINE ∧
      ∀ k, 0 ≤ retryGet es.2 k ∧ retryGet es.2 k ≤ MAX_RETRIES) ∧
    ∀ es', Step es es' →
      es.2.iterationCount ≤ es'.2.iterationCount ∧
        ∀ k, retryGet es.2 k ≤ retryGet es'.2 k := by
  have hInv := inv_reachable q hitl ms es h
  refine ⟨⟨hInv.1, ?_, hInv.2.2.1⟩, fun es' hs => step_mono es es' hInv hs⟩
  exact le_trans hInv.2.1 (le_trans (iterBound_le_one _) (by norm_num [MAX_ITERATIONS_REFINE]))

/-- Witness for C5 at the concrete entry configuration. -/
theorem C5_iteration_and_retry_invariant_witness :
    (0 ≤ (Pos.node Node.initializing, initialS (some "q") false []).2.iterationCount ∧
      (Pos.node Node.initializing,
        initialS (some "q") false []).2.iterationCount ≤ MAX_ITERATIONS_REFINE ∧
      ∀ k, 0 ≤ retryGet (Pos.node Node.initializing, initialS (some "q") false []).2 k ∧
        retryGet (Pos.node Node.initializing,
          initialS (some "q") false []).2 k ≤ MAX_RETRIES) ∧
    ∀ es', Step (Pos.node Node.initializing, initialS (some "q") false []) es' →
      (Pos.node Node.initializing,
          initialS (some "q") false []).2.iterationCount ≤ es'.2.iterationCount ∧
        ∀ k, retryGet (Pos.node Node.initializing,
          initialS (some "q") false []).2 k ≤ retryGet es'.2 k :=
  C5_iteration_and_retry_invariant (some "q") false [] _ Relation.ReflTransGen.refl

theorem map_upsert_untouched (l : List AgentMsg) (m : AgentMsg)
    (h : ∀ o ∈ l, o.id ≠ m.id) :
    l.map (fun x => if x.id == m.id then m else x) = l := by
  induction l with
  | nil => rfl
  | cons a t ih =>
      rw [List.map_cons]
      rw [if_neg (by simpa using h a (List.mem_cons_self a t))]
      rw [ih (fun o ho => h o (List.mem_cons_of_mem a ho))]

theorem addMessages_foldl_prefix (old0 : List AgentMsg) :
    ∀ (new acc : List AgentMsg), old0 <+: acc →
      (∀ m ∈ new, ∀ o ∈ old0, m.id ≠ o.id) →
      old0 <+: (new.foldl (fun acc m =>
        if acc.any (fun x => x.id == m.id) then
          acc.map (fun x => if x.id == m.id then m else x)
        else acc ++ [m]) acc) := by
  intro new
  induction new with
  | nil => intro acc hpre _; exact hpre
  | cons m rest ih =>
      intro acc hpre hfresh
      rw [List.foldl_cons]
      refine ih _ ?_ (fun m' hm' o ho => hfresh m' (List.mem_cons_of_mem m hm') o ho)
      by_cases hany : acc.any (fun x => x.id == m.id) = true
      · rw [if_pos hany]
        obtain ⟨t, rfl⟩ := hpre
        rw [List.map_append]
        rw [map_upsert_untouched old0 m
          (fun o ho => Ne.symm (hfresh m (List.mem_cons_self m rest) o ho))]
        exact ⟨t.map _, rfl⟩
      · rw [if_neg hany]
        exact hpre.trans (List.prefix_append acc [m])

theorem addMessages_prefix (old new : List AgentMsg)
    (hfresh : ∀ m ∈ new, ∀ o ∈ old, m.id ≠ o.id) :
    old <+: addMessages old new :=
  addMessages_foldl_prefix old new old (List.prefix_refl old) hfresh

theorem addMessages_foldl_self (old : List AgentMsg)
    (hnodup : (old.map AgentMsg.id).Nodup) :
    ∀ (l : List AgentMsg), (∀ o ∈ l, o ∈ old) →
      (l.foldl (fun acc m =>
        if acc.any (fun x => x.id == m.id) then
          acc.map (fun x => if x.id == m.id then m else x)
        else acc ++ [m]) old) = old := by
  have hinj := List.inj_on_of_nodup_map hnodup
  intro l
  induction l with
  | nil => intro _; rfl
  | cons m rest ih =>
      intro hsub
      rw [List.foldl_cons]
      have hm : m ∈ old := hsub m (List.mem_cons_self m rest)
      have hany : old.any (fun x => x.id == m.id) = true :=
        List.any_eq_true.mpr ⟨m, hm, by simp⟩
      rw [if_pos hany]
      have hmap : old.map (fun x => if x.id == m.id then m else x) = old := by
        have hpt : ∀ x ∈ old, (if x.id == m.id then m else x) = id x := by
          intro x hx
          by_cases hid : x.id = m.id
          · rw [if_pos (by simpa using hid)]
            exact (hinj hx hm hid).symm
          · rw [if_neg (by simpa using hid)]
            rfl
        exact (List.map_congr_left hpt).trans (List.map_id old)
      rw [hmap]
      exact ih (fun o ho => hsub o (List.mem_cons_of_mem m ho))

theorem addMessages_passthrough (old delta : List AgentMsg)
    (hnodup : (old.map AgentMsg.id).Nodup) :
    addMessages old (old ++ delta) = addMessages old delta := by
  unfold addMessages
  rw [List.foldl_append]
  rw [addMessages_foldl_self old hnodup old (fun o ho => ho)]

/-- C2: when the error handler runs with
`retry_attempts[error_source_node] < MAX_RETRIES` it increments the counter,
clears the error triple and decides `RETRY_NODE` — but the subsequent route
NEVER returns control to the failed node: the handler has already cleared
`error_source_node` in the very delta the router reads, so
`route_after_error_handler` falls through to `END` (shown concretely for a
first failure of the scoring node and generally for every state). -/
theorem C2_retry_decision_routes_to_end :
    (globalErrorHandlerNodeDelta sFirstFailure).recoveryStrategyDecision =
      some (some "RETRY_NODE") ∧
    retryGet (merge sFirstFailure (globalErrorHandlerNodeDelta sFirstFailure))
      "score_paper_relevance_node" = 1 ∧
    (merge sFirstFailure (globalErrorHandlerNodeDelta sFirstFailure)).errorMessage =
      none ∧
    (merge sFirstFailure (globalErrorHandlerNodeDelta sFirstFailure)).errorSourceNode =
      none ∧
    (merge sFirstFailure (globalErrorHandlerNodeDelta sFirstFailure)).errorDetails =
      none ∧
    nextAfter .global_error_handler
      (merge sFirstFailure (globalErrorHandlerNodeDelta sFirstFailure)) =
      Pos.finished ∧
    (∀ s : S, nextAfter .global_error_handler
      (merge s (globalErrorHandlerNodeDelta s)) = Pos.finished) :=
  ⟨rfl, rfl, rfl, rfl, rfl, rfl, fun s => by
    unfold nextAfter
    rw [handler_route_end]⟩

/-- C3: when the error handler runs with
`retry_attempts[error_source_node] ≥ MAX_RETRIES` it decides
`TERMINATE_SAFELY` and the route goes to the terminal `END` — but no
`workflow_outcome = "max_retries_reached"` is ever written: the handler's
delta carries no `workflow_outcome` key and the merged state keeps `None`. -/
theorem C3_max_retries_terminates_without_outcome :
    (globalErrorHandlerNodeDelta sMaxRetries).recoveryStrategyDecision =
      some (some "TERMINATE_SAFELY") ∧
    (globalErrorHandlerNodeDelta sMaxRetries).workflowOutcome = none ∧
    (merge sMaxRetries (globalErrorHandlerNodeDelta sMaxRetries)).workflowOutcome =
      none ∧
    retryGet (merge sMaxRetries (globalErrorHandlerNodeDelta sMaxRetries))
      "score_paper_relevance_node" = MAX_RETRIES ∧
    nextAfter .global_error_handler
      (merge sMaxRetries (globalErrorHandlerNodeDelta sMaxRetries)) = Pos.finished :=
  ⟨rfl, rfl, rfl, rfl, rfl⟩

/-- C4 counterexample: with HITL review enabled in the config and a non-empty
shortlist, the node as wired by the orchestrator (checkpointer argument left
at its default `None`) auto-confirms the full shortlist instead of leaving
`confirmed_paper_shortlist` empty, refuting the claim's suspend branch. -/
theorem C4_counterexample :
    (wiredRequestShortlistReview sHitlReview none).confirmedPaperShortlist =
      some (some ["paper1"]) ∧
    ¬ (wiredRequestShortlistReview sHitlReview none).confirmedPaperShortlist =
      some (some []) :=
  ⟨rfl, by decide⟩

/-- C4 (amended): on the normal path the review node auto-confirms — the
empty list when the shortlist is empty, the full initial shortlist otherwise
— regardless of the HITL flag, because the orchestrator never binds the
node's checkpointer parameter; only when a checkpointer object is passed to
the function directly AND HITL is enabled does the node leave
`confirmed_paper_shortlist` empty while appending the review-request message,
and even then it sets no waiting flag (`GraphState` has no
`is_waiting_for_input` field) and raises no interrupt. -/
theorem C4_shortlist_review_amended (s : S) :
    (s.initialPaperShortlist.getD [] = [] →
      (wiredRequestShortlistReview s none).confirmedPaperShortlist =
        some (some []) ∧
      (wiredRequestShortlistReview s none).messagesAppended =
        some [mkMsg "request_shortlist_review_node" "status_update"]) ∧
    (s.initialPaperShortlist.getD [] ≠ [] →
      (wiredRequestShortlistReview s none).confirmedPaperShortlist =
        some (some (s.initialPaperShortlist.getD [])) ∧
      (wiredRequestShortlistReview s none).messagesAppended =
        some [mkMsg "request_shortlist_review_node" "request_action"]) ∧
    (s.initialPaperShortlist.getD [] ≠ [] → s.hitlShortlistReviewActive = true →
      (requestShortlistReviewNodeDelta s true none).confirmedPaperShortlist =
        some (some []) ∧
      (requestShortlistReviewNodeDelta s true none).messagesAppended =
        some [mkMsg "request_shortlist_review_node" "request_action"]) ∧
    (wiredRequestShortlistReview s none).errorMessage = some none := by
  unfold wiredRequestShortlistReview requestShortlistReviewNodeDelta
  by_cases h : s.initialPaperShortlist.getD [] = []
  · simp [h]
  · by_cases hh : s.hitlShortlistReviewActive = true
    · simp [h, hh]
    · simp [h, hh]

/-- Witness for C4's amended theorem at the HITL-enabled one-paper state. -/
theorem C4_shortlist_review_amended_witness :
    (wiredRequestShortlistReview sHitlReview none).confirmedPaperShortlist =
      some (some (sHitlReview.initialPaperShortlist.getD [])) ∧
    (wiredRequestShortlistReview sHitlReview none).messagesAppended =
      some [mkMsg "request_shortlist_review_node" "request_action"] :=
  (C4_shortlist_review_amended sHitlReview).2.1 (by decide)

/-- C6 counterexample: starting with an empty `research_query`, the failing
init node reports `error_source_node = "initialize_workflow_node"` (not
`"init"`), the handler consumes a retry slot, and the final state carries no
`workflow_outcome = "error"` (the field stays `None`). -/
theorem C6_counterexample :
    (merge (initialS (some "") false [])
      (initWorkflowNodeDelta (initialS (some "") false []))).errorSourceNode ≠
      some "init" ∧
    (merge (initialS (some "") false [])
      (initWorkflowNodeDelta (initialS (some "") false []))).errorSourceNode =
      some "initialize_workflow_node" ∧
    (merge (merge (initialS (some "") false [])
        (initWorkflowNodeDelta (initialS (some "") false [])))
      (globalErrorHandlerNodeDelta (merge (initialS (some "") false [])
        (initWorkflowNodeDelta (initialS (some "") false []))))).workflowOutcome ≠
      some "error" ∧
    retryGet (merge (merge (initialS (some "") false [])
        (initWorkflowNodeDelta (initialS (some "") false [])))
      (globalErrorHandlerNodeDelta (merge (initialS (some "") false [])
        (initWorkflowNodeDelta (initialS (some "") false [])))))
      "initialize_workflow_node" = 1 :=
  ⟨by decide, rfl, by decide, rfl⟩

/-- C6 (amended): an empty/missing `research_query` makes the init node fail
without appending any message, with source `"initialize_workflow_node"`; the
workflow then routes to the error handler, which consumes one retry slot
(`retry_attempts["initialize_workflow_node"] = 1`), appends one
`error_report` message, clears the error fields, and the route falls through
to `END` without re-executing any node and without ever setting
`workflow_outcome`. -/
theorem C6_empty_query_terminal_behavior (q : Option String) (hitl : Bool)
    (ms : List AgentMsg) (hq : truthyStr q = false) :
    (initWorkflowNodeDelta (initialS q hitl ms)).messagesAppended = none ∧
    (merge (initialS q hitl ms)
      (initWorkflowNodeDelta (initialS q hitl ms))).errorSourceNode =
      some "initialize_workflow_node" ∧
    truthyStr (merge (initialS q hitl ms)
      (initWorkflowNodeDelta (initialS q hitl ms))).errorMessage = true ∧
    nextAfter .initializing
      (merge (initialS q hitl ms) (initWorkflowNodeDelta (initialS q hitl ms))) =
      .node .global_error_handler ∧
    (globalErrorHandlerNodeDelta (merge (initialS q hitl ms)
      (initWorkflowNodeDelta (initialS q hitl ms)))).recoveryStrategyDecision =
      some (some "RETRY_NODE") ∧
    (globalErrorHandlerNodeDelta (merge (initialS q hitl ms)
      (initWorkflowNodeDelta (initialS q hitl ms)))).messagesAppended =
      some [mkMsg "global_error_handler_node" "error_report"] ∧
    retryGet (merge (merge (initialS q hitl ms)
        (initWorkflowNodeDelta (initialS q hitl ms)))
      (globalErrorHandlerNodeDelta (merge (initialS q hitl ms)
        (initWorkflowNodeDelta (initialS q hitl ms)))))
      "initialize_workflow_node" = 1 ∧
    (merge (merge (initialS q hitl ms) (initWorkflowNodeDelta (initialS q hitl ms)))
      (globalErrorHandlerNodeDelta (merge (initialS q hitl ms)
        (initWorkflowNodeDelta (initialS q hitl ms))))).errorMessage = none ∧
    (merge (merge (initialS q hitl ms) (initWorkflowNodeDelta (initialS q hitl ms)))
      (globalErrorHandlerNodeDelta (merge (initialS q hitl ms)
        (initWorkflowNodeDelta (initialS q hitl ms))))).workflowOutcome = none ∧
    nextAfter .global_error_handler
      (merge (merge (initialS q hitl ms) (initWorkflowNodeDelta (initialS q hitl ms)))
        (globalErrorHandlerNodeDelta (merge (initialS q hitl ms)
          (initWorkflowNodeDelta (initialS q hitl ms))))) = Pos.finished := by
  have hq' : q = none ∨ q = some "" := by
    cases q with
    | none => exact Or.inl rfl
    | some str =>
        simp [truthyStr] at hq
        exact Or.inr (by rw [hq])
  rcases hq' with h | h <;> subst h <;>
    exact ⟨rfl, rfl, rfl, rfl, rfl, rfl, rfl, rfl, rfl, rfl⟩

/-- Witness for C6's amended theorem at the concrete empty-query start. -/
theorem C6_empty_query_terminal_behavior_witness :
    (initWorkflowNodeDelta (initialS (some "") false [])).messagesAppended = none ∧
    (merge (initialS (some "") false [])
      (initWorkflowNodeDelta (initialS (some "") false []))).errorSourceNode =
      some "initialize_workflow_node" ∧
    truthyStr (merge (initialS (some "") false [])
      (initWorkflowNodeDelta (initialS (some "") false []))).errorMessage = true ∧
    nextAfter .initializing
      (merge (initialS (some "") false [])
        (initWorkflowNodeDelta (initialS (some "") false []))) =
      .node .global_error_handler ∧
    (globalErrorHandlerNodeDelta (merge (initialS (some "") false [])
      (initWorkflowNodeDelta (initialS (some "") false [])))).recoveryStrategyDecision =
      some (some "RETRY_NODE") ∧
    (globalErrorHandlerNodeDelta (merge (initialS (some "") false [])
      (initWorkflowNodeDelta (initialS (some "") false [])))).messagesAppended =
      some [mkMsg "global_error_handler_node" "error_report"] ∧
    retryGet (merge (merge (initialS (some "") false [])
        (initWorkflowNodeDelta (initialS (some "") false [])))
      (globalErrorHandlerNodeDelta (merge (initialS (some "") false [])
        (initWorkflowNodeDelta (initialS (some "") false [])))))
      "initialize_workflow_node" = 1 ∧
    (merge (merge (initialS (some "") false [])
        (initWorkflowNodeDelta (initialS (some "") false [])))
      (globalErrorHandlerNodeDelta (merge (initialS (some "") false [])
        (initWorkflowNodeDelta (initialS (some "") false []))))).errorMessage = none ∧
    (merge (merge (initialS (some "") false [])
        (initWorkflowNodeDelta (initialS (some "") false [])))
      (globalErrorHandlerNodeDelta (merge (initialS (some "") false [])
        (initWorkflowNodeDelta (initialS (some "") false []))))).workflowOutcome =
      none ∧
    nextAfter .global_error_handler
      (merge (merge (initialS (some "") false [])
        (initWorkflowNodeDelta (initialS (some "") false [])))
        (globalErrorHandlerNodeDelta (merge (initialS (some "") false [])
          (initWorkflowNodeDelta (initialS (some "") false []))))) = Pos.finished :=
  C6_empty_query_terminal_behavior (some "") false [] (by decide)

/-- C7: neither value `should_refine_further` can return
(`"finalize_output"`, `"refine_directions"`) is a key of the branch map
registered for the `check_refinement_loop_condition` conditional edge — the
map's keys are the two target node names — so routing after the
refinement-loop check is undefined for every router output, refuting
totality. -/
theorem C7_refinement_branch_map_mismatch :
    (∀ s : S, lookupStr refinementLoopBranchMap (should_refine_further s) = none) ∧
    lookupStr refinementLoopBranchMap "finalize_output" = none ∧
    lookupStr refinementLoopBranchMap "refine_directions" = none :=
  ⟨refinement_lookup_none, rfl, rfl⟩

/-- C8 counterexample: the initialization node's error path (empty
`research_query`) returns a delta with no `messages` key at all — it appends
no `AgentMessage`. -/
theorem C8_counterexample :
    (initWorkflowNodeDelta (initialS (some "") false [])).messagesAppended = none :=
  rfl

/-- C8 (amended): every modelled node execution appends at least one
`AgentMessage` on every branch — success, skip and caught-error alike — with
the single exception of the initialization node's error path, whose delta
contains no message. -/
theorem C8_nodes_append_messages (s0 : S) (h0 : truthyStr s0.researchQuery = true) :
    (initWorkflowNodeDelta s0).messagesAppended =
      some [mkMsg "SystemInitializer" "inform_state"] ∧
    (∀ s : S, truthyStr s.researchQuery = false →
      (initWorkflowNodeDelta s).messagesAppended = none) ∧
    (∀ o, (planningNodeDelta o).messagesAppended.getD [] ≠ []) ∧
    (∀ o, (searchingNodeDelta o).messagesAppended.getD [] ≠ []) ∧
    (∀ o, (scorePaperRelevanceNodeDelta o).messagesAppended.getD [] ≠ []) ∧
    (∀ sh o, (createInitialShortlistNodeDelta sh o).messagesAppended.getD [] ≠ []) ∧
    (∀ s f, (wiredRequestShortlistReview s f).messagesAppended.getD [] ≠ []) ∧
    (∀ o, (processingPapersNodeDelta o).messagesAppended.getD [] ≠ []) ∧
    (∀ out o, (literatureAnalysisNodeDelta out o).messagesAppended.getD [] ≠ []) ∧
    (∀ o, (identifyGapsNodeDelta o).messagesAppended.getD [] ≠ []) ∧
    (∀ s o, (generatingDirectionsNodeDelta s o).messagesAppended.getD [] ≠ []) ∧
    (∀ s ev o, (evaluateDirectionsNodeDelta s ev o).messagesAppended.getD [] ≠ []) ∧
    (∀ s o, (refiningDirectionsNodeDelta s o).messagesAppended.getD [] ≠ []) ∧
    (∀ o, (prepareFinalOutputNodeDelta o).messagesAppended.getD [] ≠ []) ∧
    (∀ s : S, (globalErrorHandlerNodeDelta s).messagesAppended.getD [] ≠ []) ∧
    (∀ s f, (resolveConflictNodeDelta s f).messagesAppended.getD [] ≠ []) := by
  refine ⟨by simp [initWorkflowNodeDelta, h0], ?_, ?_, ?_, ?_, ?_, ?_, ?_, ?_, ?_,
    ?_, ?_, ?_, ?_, ?_, ?_⟩
  · intro s hs
    simp [initWorkflowNodeDelta, hs]
  · intro o; cases o <;> simp [planningNodeDelta]
  · intro o; cases o <;> simp [searchingNodeDelta]
  · intro o; cases o <;> simp [scorePaperRelevanceNodeDelta]
  · intro sh o; cases o <;> simp [createInitialShortlistNodeDelta]
  · intro s f
    unfold wiredRequestShortlistReview requestShortlistReviewNodeDelta
    cases f with
    | some m => simp
    | none =>
        by_cases h : s.initialPaperShortlist.getD [] = [] <;> simp [h]
  · intro o; cases o <;> simp [processingPapersNodeDelta]
  · intro out o; cases o <;> simp [literatureAnalysisNodeDelta]
  · intro o; cases o <;> simp [identifyGapsNodeDelta]
  · intro s o; cases o <;> simp [generatingDirectionsNodeDelta]
  · intro s ev o; cases o <;> simp [evaluateDirectionsNodeDelta]
  · intro s o; cases o <;> simp [refiningDirectionsNodeDelta]
  · intro o; cases o <;> simp [prepareFinalOutputNodeDelta]
  · intro s
    by_cases hc : dictGetD s.retryAttempts (s.errorSourceNode.getD "Unknown node") 0 <
        MAX_RETRIES
    · rw [handler_delta_retry s hc]; simp
    · rw [handler_delta_terminate s hc]; simp
  · intro s f
    cases f with
    | some m => simp [resolveConflictNodeDelta]
    | none => simp [resolveConflictNodeDelta]

/-- Witness for C8's amended theorem at a concrete non-empty query state. -/
theorem C8_nodes_append_messages_witness :
    (initWorkflowNodeDelta (initialS (some "q") false [])).messagesAppended =
      some [mkMsg "SystemInitializer" "inform_state"] :=
  (C8_nodes_append_messages (initialS (some "q") false []) (by decide)).1

/-- C9: on its normal (non-exception) path the conflict-resolution node is a
pure function of the state: a non-empty `conflicting_outputs` list resolves
to its first element, otherwise the node falls back to the previously
committed `literature_analysis_output`; in both cases it clears
`conflict_detected` and all error fields. -/
theorem C9_resolve_conflict_normal_path (s : S) :
    (∀ c rest, s.conflictingOutputs = some (c :: rest) →
      (resolveConflictNodeDelta s none).literatureAnalysisOutput = some (some c) ∧
      (resolveConflictNodeDelta s none).resolvedOutput = some (some c)) ∧
    ((s.conflictingOutputs = none ∨ s.conflictingOutputs = some []) →
      (resolveConflictNodeDelta s none).literatureAnalysisOutput =
        some s.literatureAnalysisOutput ∧
      (resolveConflictNodeDelta s none).resolvedOutput =
        some s.literatureAnalysisOutput) ∧
    (resolveConflictNodeDelta s none).conflictDetected = some (some false) ∧
    (resolveConflictNodeDelta s none).errorMessage = some none ∧
    (resolveConflictNodeDelta s none).errorSourceNode = some none ∧
    (resolveConflictNodeDelta s none).errorDetails = some none := by
  refine ⟨?_, ?_, rfl, rfl, rfl, rfl⟩
  · intro c rest hc
    unfold resolveConflictNodeDelta
    rw [hc]
    exact ⟨rfl, rfl⟩
  · intro h
    rcases h with h | h <;>
      (unfold resolveConflictNodeDelta; rw [h]; exact ⟨rfl, rfl⟩)

/-- Witness for C9 at the concrete two-candidate conflict state. -/
theorem C9_resolve_conflict_normal_path_witness :
    (resolveConflictNodeDelta sConflict none).literatureAnalysisOutput =
      some (some ⟨some "analysis_complete", "candidateA"⟩) ∧
    (resolveConflictNodeDelta sConflict none).resolvedOutput =
      some (some ⟨some "analysis_complete", "candidateA"⟩) :=
  (C9_resolve_conflict_normal_path sConflict).1
    ⟨some "analysis_complete", "candidateA"⟩ [⟨none, "candidateB"⟩] rfl

/-- C10: under the `add_messages` reducer, across every sequence of log
updates performed by the source's node executions (fresh-id appends, in
either the plain or the pass-through style), the previous log is a prefix of
the new one: its length is non-decreasing and no previously appended entry is
removed, edited or reordered. -/
theorem C10_messages_append_only (l1 l2 : List AgentMsg)
    (h : Relation.ReflTransGen LogStep l1 l2) :
    l1 <+: l2 ∧ l1.length ≤ l2.length := by
  induction h with
  | refl => exact ⟨List.prefix_refl _, le_refl _⟩
  | tail h1 hstep ih =>
      obtain ⟨hp, hl⟩ := ih
      cases hstep with
      | direct delta hfresh =>
          have hpre := addMessages_prefix _ delta hfresh
          exact ⟨hp.trans hpre, le_trans hl hpre.length_le⟩
      | passthrough delta hnodup hfresh =>
          rw [addMessages_passthrough _ delta hnodup]
          have hpre := addMessages_prefix _ delta hfresh
          exact ⟨hp.trans hpre, le_trans hl hpre.length_le⟩

/-- Witness for C10 on a concrete one-step log extension. -/
theorem C10_messages_append_only_witness :
    [mkMsg "a" "b"] <+: addMessages [mkMsg "a" "b"] [⟨1, "c", "d"⟩] ∧
      ([mkMsg "a" "b"] : List AgentMsg).length ≤
        (addMessages [mkMsg "a" "b"] [⟨1, "c", "d"⟩]).length :=
  C10_messages_append_only _ _ (Relation.ReflTransGen.single
    (LogStep.direct [mkMsg "a" "b"] [⟨1, "c", "d"⟩] (by decide)))

end ResearchAIde
